import Mathlib

/-!
Shallow embedding of the resilient request-orchestration pipeline from
`iflib_tools/api/api.py` (classes `APIResponse`, `RetryPolicy`,
`CircuitBreaker`, `RateLimiter`, `CacheManager`, `MockManager`,
`MetricsCollector`, and the method `APIClient.request`).

Conventions of the embedding:
* Python floats used for timestamps / durations become `ℚ` (exact, executable).
* Python ints become `Int` (statuses, thresholds, retry counters).
* `time.time()` is an input: every operation that reads the clock takes an
  explicit `now : ℚ` argument.  Each attempt of the retry loop is driven by a
  transport oracle `Nat → Attempt` giving the outcome, measured elapsed time
  and the timestamp of that attempt.
* Python dicts keyed by strings become association lists with unique keys
  (overwrite = cons after removing the old binding; `del` = removal).
* Python exceptions are identified by an opaque `String`;
  `isinstance(e, expected_exceptions)` becomes list membership.
-/

namespace Api

/-- `APIResponse` dataclass: unified response value. -/
structure APIResponse where
  status : Int
  data : String
  headers : List (String × String)
  elapsed : ℚ
  url : String
deriving DecidableEq, Repr

/-- `APIResponse.success`: derived property `200 <= status < 300`. -/
def APIResponse.success (r : APIResponse) : Bool :=
  decide (200 ≤ r.status) && decide (r.status < 300)

/-- `RetryPolicy.__init__` fields. -/
structure RetryPolicy where
  max_retries : Int
  backoff_factor : ℚ
  retry_on : List Int
deriving DecidableEq, Repr

/-- `RetryPolicy()` with all defaults (`retry_on=None` falls back to the
five retryable statuses). -/
def RetryPolicy.mkDefault : RetryPolicy :=
  { max_retries := 3, backoff_factor := 1, retry_on := [429, 500, 502, 503, 504] }

/-- `RetryPolicy.should_retry`: `attempt < self.max_retries and status in self.retry_on`. -/
def RetryPolicy.should_retry (p : RetryPolicy) (status : Int) (attempt : Int) : Bool :=
  decide (attempt < p.max_retries) && decide (status ∈ p.retry_on)

/-- `RetryPolicy.get_delay`: `backoff_factor * (2 ** attempt)` (the loop only
ever calls it with natural attempt numbers). -/
def RetryPolicy.get_delay (p : RetryPolicy) (attempt : Nat) : ℚ :=
  p.backoff_factor * (2 : ℚ) ^ attempt

/-- Circuit-breaker states (`self.state` string in the source). -/
inductive CBState where
  | CLOSED
  | OPEN
  | HALF_OPEN
deriving DecidableEq, Repr

/-- `CircuitBreaker` fields.  `expected_exceptions` (a tuple of exception
classes in Python) is modelled as the list of exception identifiers it
accepts; `isinstance` becomes membership. -/
structure CircuitBreaker where
  failure_threshold : Int
  recovery_timeout : ℚ
  expected_exceptions : List String
  failures : Int
  state : CBState
  last_failure_time : ℚ
deriving DecidableEq, Repr

/-- `CircuitBreaker.__init__`: `failures = 0`, `state = "CLOSED"`,
`last_failure_time = 0`. -/
def CircuitBreaker.mk0 (failure_threshold : Int) (recovery_timeout : ℚ)
    (expected_exceptions : List String) : CircuitBreaker :=
  { failure_threshold := failure_threshold
    recovery_timeout := recovery_timeout
    expected_exceptions := expected_exceptions
    failures := 0
    state := .CLOSED
    last_failure_time := 0 }

/-- `CircuitBreaker.can_execute`, with `time.time()` passed as `now`.
Returns the boolean together with the (possibly flipped) breaker. -/
def CircuitBreaker.can_execute (cb : CircuitBreaker) (now : ℚ) : Bool × CircuitBreaker :=
  if cb.state = .OPEN then
    if cb.recovery_timeout < now - cb.last_failure_time then
      (true, { cb with state := .HALF_OPEN })
    else
      (false, cb)
  else
    (true, cb)

/-- `CircuitBreaker.on_success`: HALF_OPEN closes; failures reset to 0. -/
def CircuitBreaker.on_success (cb : CircuitBreaker) : CircuitBreaker :=
  let cb := if cb.state = .HALF_OPEN then { cb with state := .CLOSED } else cb
  { cb with failures := 0 }

/-- `CircuitBreaker.on_failure`: increment failures, stamp the time, and open
when the (new) failure count reaches the threshold. -/
def CircuitBreaker.on_failure (cb : CircuitBreaker) (now : ℚ) : CircuitBreaker :=
  let cb := { cb with failures := cb.failures + 1, last_failure_time := now }
  if cb.failure_threshold ≤ cb.failures then { cb with state := .OPEN } else cb

/-- `RateLimiter` fields (`rps`, `algorithm`, `tokens`, `last_refill`,
`requests_history`). -/
structure RateLimiter where
  rps : Int
  algorithm : String
  tokens : ℚ
  last_refill : ℚ
  requests_history : List ℚ
deriving DecidableEq, Repr

/-- `RateLimiter.__init__`: `tokens = requests_per_second`,
`last_refill = time.time()` (passed as `now`), empty history. -/
def RateLimiter.mk0 (requests_per_second : Int) (algorithm : String) (now : ℚ) : RateLimiter :=
  { rps := requests_per_second
    algorithm := algorithm
    tokens := requests_per_second
    last_refill := now
    requests_history := [] }

/-- `RateLimiter._token_bucket_acquire`. -/
def RateLimiter.token_bucket_acquire (rl : RateLimiter) (now : ℚ) : Bool × RateLimiter :=
  let time_passed := now - rl.last_refill
  let new_tokens := time_passed * (rl.rps : ℚ)
  let rl := { rl with tokens := min (rl.rps : ℚ) (rl.tokens + new_tokens), last_refill := now }
  if 1 ≤ rl.tokens then
    (true, { rl with tokens := rl.tokens - 1 })
  else
    (false, rl)

/-- `RateLimiter._fixed_window_acquire` (`now // 1` is the floor of `now`). -/
def RateLimiter.fixed_window_acquire (rl : RateLimiter) (now : ℚ) : Bool × RateLimiter :=
  let window_start : ℚ := (⌊now⌋ : ℚ)
  let rl := { rl with requests_history := rl.requests_history.filter (fun t => window_start ≤ t) }
  if (rl.requests_history.length : Int) < rl.rps then
    (true, { rl with requests_history := rl.requests_history ++ [now] })
  else
    (false, rl)

/-- `RateLimiter.acquire`: dispatch on the algorithm name; unknown algorithms
always admit. -/
def RateLimiter.acquire (rl : RateLimiter) (now : ℚ) : Bool × RateLimiter :=
  if rl.algorithm = "token_bucket" then rl.token_bucket_acquire now
  else if rl.algorithm = "fixed_window" then rl.fixed_window_acquire now
  else (true, rl)

/-- One cache slot: `{'response': ..., 'timestamp': ...}`. -/
structure CacheEntry where
  response : APIResponse
  timestamp : ℚ
deriving DecidableEq, Repr

/-- `CacheManager`: TTL plus a string-keyed dict of entries. -/
structure CacheManager where
  ttl : ℚ
  cache : List (String × CacheEntry)
deriving DecidableEq, Repr

/-- `CacheManager.get_key`: `f"{method.upper()}_{endpoint}_{param_str}"`.
`params` is the already-canonicalized (sorted-key JSON) serialization of the
query parameters; `none` (Python `None`/empty) serializes to `""`. -/
def CacheManager.get_key (method endpoint : String) (params : Option String) : String :=
  method.toUpper ++ "_" ++ endpoint ++ "_" ++ params.getD ""

/-- `CacheManager.get`: fresh entries (`now - timestamp < ttl`) are returned,
stale entries are deleted (lazy eviction); returns the new cache state. -/
def CacheManager.get (cm : CacheManager) (key : String) (now : ℚ) :
    Option APIResponse × CacheManager :=
  match cm.cache.lookup key with
  | some cached =>
      if now - cached.timestamp < cm.ttl then
        (some cached.response, cm)
      else
        (none, { cm with cache := cm.cache.filter (fun p => p.1 ≠ key) })
  | none => (none, cm)

/-- `CacheManager.set`: unconditional dict overwrite. -/
def CacheManager.set (cm : CacheManager) (key : String) (response : APIResponse)
    (now : ℚ) : CacheManager :=
  { cm with
    cache := (key, ⟨response, now⟩) :: cm.cache.filter (fun p => p.1 ≠ key) }

/-- One registered mock (`status`, `data`, `headers`, `elapsed`). -/
structure MockEntry where
  status : Int
  data : String
  headers : List (String × String)
  elapsed : ℚ
deriving DecidableEq, Repr

/-- `MockManager`: dict of mocks keyed by `f"{method.upper()}_{endpoint}"`,
plus the `enabled` flag (initially false). -/
structure MockManager where
  mocks : List (String × MockEntry)
  enabled : Bool
deriving DecidableEq, Repr

/-- `MockManager.add_mock` (default body is the literal
`\x7b"message": "Mock response"\x7d`, default headers empty, elapsed 0.1). -/
def MockManager.add_mock (mm : MockManager) (endpoint : String) (method : String)
    (response_data : Option String) (status : Int)
    (headers : Option (List (String × String))) : MockManager :=
  let mock_key := method.toUpper ++ "_" ++ endpoint
  let entry : MockEntry :=
    { status := status
      data := response_data.getD "\x7b\"message\": \"Mock response\"\x7d"
      headers := headers.getD []
      elapsed := 1 / 10 }
  { mm with mocks := (mock_key, entry) :: mm.mocks.filter (fun p => p.1 ≠ mock_key) }

/-- `MockManager.get_mock_response`: when enabled and a mock matches,
synthesize an `APIResponse` with url `mock://endpoint`. -/
def MockManager.get_mock_response (mm : MockManager) (method endpoint : String) :
    Option APIResponse :=
  if mm.enabled then
    match mm.mocks.lookup (method.toUpper ++ "_" ++ endpoint) with
    | some mock =>
        some { status := mock.status, data := mock.data, headers := mock.headers,
               elapsed := mock.elapsed, url := "mock://" ++ endpoint }
    | none => none
  else
    none

/-- One entry of `metrics['errors']`. -/
structure ErrorRecord where
  status : Int
  url : String
  timestamp : ℚ
deriving DecidableEq, Repr

/-- `MetricsCollector`: the three recorded lists plus creation time. -/
structure MetricsCollector where
  response_times : List ℚ
  status_codes : List Int
  errors : List ErrorRecord
  start_time : ℚ
deriving DecidableEq, Repr

/-- `MetricsCollector.__init__`. -/
def MetricsCollector.mk0 (now : ℚ) : MetricsCollector :=
  { response_times := [], status_codes := [], errors := [], start_time := now }

/-- `MetricsCollector.record_request`: append elapsed and status of every
recorded response; unsuccessful responses additionally append an error
record stamped `now`. -/
def MetricsCollector.record_request (mc : MetricsCollector) (response : APIResponse)
    (now : ℚ) : MetricsCollector :=
  let mc := { mc with
    response_times := mc.response_times ++ [response.elapsed]
    status_codes := mc.status_codes ++ [response.status] }
  if response.success then mc
  else { mc with errors := mc.errors ++ [⟨response.status, response.url, now⟩] }

/-- The dictionary returned by `MetricsCollector.get_summary`
(`status_distribution` as a count function over status codes). -/
structure MetricsSummary where
  total_requests : Nat
  success_rate : ℚ
  avg_response_time : ℚ
  requests_per_second : ℚ
  error_count : Nat
  status_distribution : Int → Nat

/-- `MetricsCollector.get_summary`, with `time.time()` passed as `now`. -/
def MetricsCollector.get_summary (mc : MetricsCollector) (now : ℚ) : MetricsSummary :=
  let total_requests := mc.response_times.length
  let total_time := now - mc.start_time
  let successful_requests :=
    (mc.status_codes.filter (fun s => decide (200 ≤ s) && decide (s < 300))).length
  { total_requests := total_requests
    success_rate :=
      if 0 < total_requests then (successful_requests : ℚ) / (total_requests : ℚ) * 100 else 0
    avg_response_time :=
      if 0 < total_requests then mc.response_times.sum / (total_requests : ℚ) else 0
    requests_per_second := if 0 < total_time then (total_requests : ℚ) / total_time else 0
    error_count := mc.errors.length
    status_distribution := fun code => mc.status_codes.count code }

/-- Outcome of one call to the transport collaborator
(`self._session.request(...)`): either a well-formed response (status, body,
headers) or a raised exception, identified by an opaque string. -/
inductive TransportResult where
  | ok (status : Int) (data : String) (headers : List (String × String))
  | exn (e : String)
deriving DecidableEq, Repr

/-- The observable data of one attempt of the retry loop: the transport
outcome, the measured `elapsed = time.time() - start_time`, and the timestamp
`now` at which the attempt's post-processing (metrics error stamp /
`on_failure` stamp / cache store) happens. -/
structure Attempt where
  result : TransportResult
  elapsed : ℚ
  now : ℚ
deriving DecidableEq, Repr

/-- Mutable state owned by one `APIClient`: the components `request` reads and
updates.  `sleeps` records the retry delays passed to `time.sleep` inside the
retry loop (in order), so that "exactly two delayed retries" is observable.
The schema validator is omitted: `validate_response` only logs and mutates
none of these components. -/
structure ClientState where
  circuit_breaker : CircuitBreaker
  rate_limiter : Option RateLimiter
  mock_manager : MockManager
  cache : Option CacheManager
  metrics : Option MetricsCollector
  sleeps : List ℚ
deriving DecidableEq, Repr

/-- How one call to `APIClient.request` terminates:
* `ok r` — a value is returned (mock, cache hit, or transport response);
* `circuitOpen` — `raise Exception("Circuit breaker is OPEN")`;
* `transportError e` — the bare `raise` re-raising transport exception `e`;
* `blocked` — the rate-limiter polling loop has not admitted the call within
  the modelled poll times (the Python call has not returned yet). -/
inductive RequestResult where
  | ok (r : APIResponse)
  | circuitOpen
  | transportError (e : String)
  | blocked
deriving DecidableEq, Repr

/-- The `while not self.rate_limiter.acquire(): time.sleep(0.1)` polling loop,
driven by the (finite, modelled) list of times at which the re-polls happen.
Returns whether admission succeeded within those polls, and the final
limiter. -/
def RateLimiter.acquirePoll : RateLimiter → List ℚ → Bool × RateLimiter
  | rl, [] => (false, rl)
  | rl, t :: ts =>
      match rl.acquire t with
      | (true, rl') => (true, rl')
      | (false, rl') => rl'.acquirePoll ts

/-- `APIClient._build_url`. -/
def APIClient.build_url (base_url : String) (endpoint : String) : String :=
  if base_url ≠ "" then base_url ++ "/" ++ endpoint.dropWhile (fun c => c = '/') else endpoint

/-- The retry loop of `APIClient.request` (the `while True:` block), entered
with `attempt` already incremented to the current attempt number (the first
call is `attempt = 1`).  `oracle n` is the transport outcome of attempt `n`.
`cache_key` is `some k` exactly when step 4 of `request` computed a cache key.
Returns the result together with the final client state. -/
def requestLoop (policy : RetryPolicy) (retry : Bool) (expected : List String)
    (cache_key : Option String) (url : String) (oracle : Nat → Attempt)
    (attempt : Nat) (st : ClientState) : RequestResult × ClientState :=
  let a := oracle attempt
  match a.result with
  | .ok status dat hdrs =>
      let api_response : APIResponse :=
        { status := status, data := dat, headers := hdrs, elapsed := a.elapsed, url := url }
      -- `if self.metrics: self.metrics.record_request(api_response)`
      let st := { st with
        metrics := st.metrics.map (fun (m : MetricsCollector) => m.record_request api_response a.now) }
      -- `if cache_key and self.cache and api_response.success: self.cache.set(...)`
      let st :=
        match cache_key, st.cache with
        | some k, some c =>
            if api_response.success then
              { st with cache := some (c.set k api_response a.now) }
            else st
        | _, _ => st
      if api_response.success then
        (.ok api_response, { st with circuit_breaker := st.circuit_breaker.on_success })
      else if retry && policy.should_retry status (attempt : Int) then
        requestLoop policy retry expected cache_key url oracle (attempt + 1)
          { st with sleeps := st.sleeps ++ [policy.get_delay attempt] }
      else
        (.ok api_response,
          { st with circuit_breaker := st.circuit_breaker.on_failure a.now })
  | .exn e =>
      let st := { st with circuit_breaker := st.circuit_breaker.on_failure a.now }
      if retry && decide ((attempt : Int) < policy.max_retries) && decide (e ∈ expected) then
        requestLoop policy retry expected cache_key url oracle (attempt + 1)
          { st with sleeps := st.sleeps ++ [policy.get_delay attempt] }
      else
        (.transportError e, st)
termination_by (policy.max_retries - (attempt : Int)).toNat
decreasing_by
  · simp only [Bool.and_eq_true, decide_eq_true_eq, RetryPolicy.should_retry] at *
    omega
  · simp only [Bool.and_eq_true, decide_eq_true_eq] at *
    omega

/-- `APIClient.request`.  `now0` is the timestamp at which the pre-loop gates
(circuit breaker, first rate-limit acquire, cache lookup) run; `polls` are
the timestamps of subsequent rate-limiter re-polls; `oracle` drives the
transport attempts.  Returns the result and the final client state. -/
def APIClient.request (base_url : String) (policy : RetryPolicy)
    (method endpoint : String) (retry : Bool) (use_cache : Bool)
    (params : Option String) (now0 : ℚ) (polls : List ℚ)
    (oracle : Nat → Attempt) (st : ClientState) : RequestResult × ClientState :=
  -- 1. mocks
  match st.mock_manager.get_mock_response method endpoint with
  | some mock_response => (.ok mock_response, st)
  | none =>
    -- 2. circuit breaker
    let (can, cb1) := st.circuit_breaker.can_execute now0
    let st := { st with circuit_breaker := cb1 }
    if !can then
      (.circuitOpen, st)
    else
      -- 3. rate limiting (block / poll until admitted)
      let gate : Bool × ClientState :=
        match st.rate_limiter with
        | some rl =>
            match rl.acquire now0 with
            | (true, rl') => (true, { st with rate_limiter := some rl' })
            | (false, rl') =>
                let (ok, rl'') := rl'.acquirePoll polls
                (ok, { st with rate_limiter := some rl'' })
        | none => (true, st)
      let (admitted, st) := gate
      if !admitted then
        (.blocked, st)
      else
        -- 4. cache lookup (GET + use_cache + cache configured)
        let cacheStep : Option String × Option APIResponse × ClientState :=
          match st.cache with
          | some c =>
              if use_cache && (method.toUpper = "GET" : Bool) then
                let key := CacheManager.get_key method endpoint params
                let (r, c') := c.get key now0
                (some key, r, { st with cache := some c' })
              else (none, none, st)
          | none => (none, none, st)
        let (cache_key, cached, st) := cacheStep
        match cached with
        | some cached_response => (.ok cached_response, st)
        | none =>
            -- 5. the retry loop, attempt counter starting at 1
            requestLoop policy retry st.circuit_breaker.expected_exceptions cache_key
              (APIClient.build_url base_url endpoint) oracle 1 st

/-- `n` successive `acquire()` calls at the single instant `now`
(zero elapsed time between them); returns how many were admitted together
with the final limiter state. -/
def RateLimiter.burst (rl : RateLimiter) (now : ℚ) : Nat → Nat × RateLimiter
  | 0 => (0, rl)
  | n + 1 =>
      let (ok, rl1) := rl.acquire now
      let (c, rl2) := rl1.burst now n
      (if ok then c + 1 else c, rl2)

/-- Breaker states reachable from a freshly constructed `CircuitBreaker` via
any sequence of `can_execute` / `on_success` / `on_failure` calls. -/
inductive CircuitBreaker.Reachable (ft : Int) (rt : ℚ) (ex : List String) :
    CircuitBreaker → Prop
  | init : CircuitBreaker.Reachable ft rt ex (CircuitBreaker.mk0 ft rt ex)
  | can_exec (cb : CircuitBreaker) (now : ℚ) :
      CircuitBreaker.Reachable ft rt ex cb →
      CircuitBreaker.Reachable ft rt ex (cb.can_execute now).2
  | success (cb : CircuitBreaker) :
      CircuitBreaker.Reachable ft rt ex cb →
      CircuitBreaker.Reachable ft rt ex cb.on_success
  | failure (cb : CircuitBreaker) (now : ℚ) :
      CircuitBreaker.Reachable ft rt ex cb →
      CircuitBreaker.Reachable ft rt ex (cb.on_failure now)

section Lemmas

/-- Deleting a key from an association list makes lookups of that key fail. -/
lemma lookup_filter_ne_eq_none {β : Type} (l : List (String × β)) (key : String) :
    (l.filter (fun p => p.1 ≠ key)).lookup key = none := by
  induction l with
  | nil => rfl
  | cons hd tl ih =>
      by_cases h : hd.1 = key
      · simpa [List.filter_cons, h] using ih
      · have hb : (key == hd.1) = false := beq_eq_false_iff_ne.mpr (fun e => h e.symm)
        simpa [List.filter_cons, h, List.lookup, hb] using ih

/-- `on_failure` preserves the breaker configuration and increments the
failure counter. -/
lemma on_failure_fields (cb : CircuitBreaker) (now : ℚ) :
    (cb.on_failure now).failure_threshold = cb.failure_threshold ∧
    (cb.on_failure now).recovery_timeout = cb.recovery_timeout ∧
    (cb.on_failure now).expected_exceptions = cb.expected_exceptions ∧
    (cb.on_failure now).failures = cb.failures + 1 ∧
    (cb.on_failure now).last_failure_time = now := by
  unfold CircuitBreaker.on_failure
  dsimp only
  split <;> simp

/-- Once a breaker is OPEN, further `on_failure` calls keep it OPEN. -/
lemma on_failure_preserves_open (cb : CircuitBreaker) (now : ℚ)
    (h : cb.state = .OPEN) : (cb.on_failure now).state = .OPEN := by
  unfold CircuitBreaker.on_failure
  dsimp only
  split <;> simp [h]

/-- A fold of `on_failure` calls over an OPEN breaker stays OPEN. -/
lemma foldl_on_failure_open (ts : List ℚ) (cb : CircuitBreaker)
    (h : cb.state = .OPEN) :
    (ts.foldl (fun c t => c.on_failure t) cb).state = .OPEN := by
  induction ts generalizing cb with
  | nil => exact h
  | cons t ts ih => exact ih _ (on_failure_preserves_open cb t h)

/-- A fold of `on_failure` calls preserves the configuration and adds the
number of calls to the failure counter. -/
lemma foldl_on_failure_fields (ts : List ℚ) (cb : CircuitBreaker) :
    (ts.foldl (fun c t => c.on_failure t) cb).failure_threshold = cb.failure_threshold ∧
    (ts.foldl (fun c t => c.on_failure t) cb).recovery_timeout = cb.recovery_timeout ∧
    (ts.foldl (fun c t => c.on_failure t) cb).failures = cb.failures + ts.length := by
  induction ts generalizing cb with
  | nil => simp
  | cons t ts ih =>
      obtain ⟨h1, h2, h3⟩ := ih (cb.on_failure t)
      obtain ⟨g1, g2, g3, g4, g5⟩ := on_failure_fields cb t
      refine ⟨by simp [List.foldl_cons, h1, g1], by simp [List.foldl_cons, h2, g2], ?_⟩
      simp only [List.foldl_cons, h3, g4, List.length_cons]
      push_cast
      ring

/-- A nonempty fold of `on_failure` calls over a CLOSED breaker whose total
failure count reaches the threshold ends OPEN. -/
lemma foldl_on_failure_opens (ts : List ℚ) (cb : CircuitBreaker)
    (hst : cb.state = .CLOSED)
    (hcnt : cb.failure_threshold ≤ cb.failures + ts.length)
    (hne : ts ≠ []) :
    (ts.foldl (fun c t => c.on_failure t) cb).state = .OPEN := by
  induction ts generalizing cb with
  | nil => exact absurd rfl hne
  | cons t ts ih =>
      rw [List.foldl_cons]
      by_cases hthr : cb.failure_threshold ≤ cb.failures + 1
      · have hopen : (cb.on_failure t).state = .OPEN := by
          unfold CircuitBreaker.on_failure
          dsimp only
          rw [if_pos hthr]
        exact foldl_on_failure_open ts _ hopen
      · have hclosed : (cb.on_failure t).state = .CLOSED := by
          unfold CircuitBreaker.on_failure
          dsimp only
          rw [if_neg hthr]
          exact hst
        have hne' : ts ≠ [] := by
          rintro rfl
          simp only [List.length_cons, List.length_nil] at hcnt
          omega
        obtain ⟨g1, _, _, g4, _⟩ := on_failure_fields cb t
        apply ih _ hclosed
        · rw [g1, g4]
          simp only [List.length_cons] at hcnt
          push_cast at hcnt ⊢
          omega
        · exact hne'

/-- Counting admissions of a same-instant burst never exceeds the (fractional)
token count, for a token-bucket limiter whose refill clock already points at
`now`. -/
lemma burst_count_le_tokens (now : ℚ) (n : Nat) :
    ∀ rl : RateLimiter, rl.algorithm = "token_bucket" →
      rl.last_refill = now → 0 ≤ rl.tokens → rl.tokens ≤ (rl.rps : ℚ) →
      ((rl.burst now n).1 : ℚ) ≤ rl.tokens := by
  induction n with
  | zero =>
      intro rl _ _ h0 _
      simpa [RateLimiter.burst] using h0
  | succ k ih =>
      intro rl halg href h0 hcap
      have hacq : rl.acquire now = rl.token_bucket_acquire now := by
        simp [RateLimiter.acquire, halg]
      have hstep : rl.token_bucket_acquire now =
          if (1 : ℚ) ≤ rl.tokens then
            (true, { rl with tokens := rl.tokens - 1, last_refill := now })
          else (false, { rl with tokens := rl.tokens, last_refill := now }) := by
        unfold RateLimiter.token_bucket_acquire
        dsimp only
        rw [href]
        simp [min_eq_right hcap]
      unfold RateLimiter.burst
      rw [hacq, hstep]
      by_cases h1 : (1 : ℚ) ≤ rl.tokens
      · rw [if_pos h1]
        have hrec : ((({ rl with tokens := rl.tokens - 1, last_refill := now }
              : RateLimiter).burst now k).1 : ℚ) ≤ rl.tokens - 1 :=
          ih { rl with tokens := rl.tokens - 1, last_refill := now }
            halg rfl (show (0 : ℚ) ≤ rl.tokens - 1 by linarith)
            (show rl.tokens - 1 ≤ (rl.rps : ℚ) by linarith)
        show (((({ rl with tokens := rl.tokens - 1, last_refill := now }
            : RateLimiter).burst now k).1 + 1 : Nat) : ℚ) ≤ rl.tokens
        push_cast
        linarith
      · rw [if_neg h1]
        have hrec : ((({ rl with tokens := rl.tokens, last_refill := now }
              : RateLimiter).burst now k).1 : ℚ) ≤ rl.tokens :=
          ih { rl with tokens := rl.tokens, last_refill := now }
            halg rfl (show (0 : ℚ) ≤ rl.tokens from h0)
            (show rl.tokens ≤ (rl.rps : ℚ) from hcap)
        exact hrec

end Lemmas

/-- C9: `should_retry(status, attempt)` is true exactly when
`attempt < maxRetries` and `status` belongs to the retryable set; for
`attempt ≥ maxRetries` it is false regardless of status; and the default
retryable set is `[429, 500, 502, 503, 504]`. -/
theorem C9_should_retry_characterization (p : RetryPolicy) (status attempt : Int) :
    (p.should_retry status attempt = true ↔
      attempt < p.max_retries ∧ status ∈ p.retry_on) ∧
    (p.max_retries ≤ attempt → p.should_retry status attempt = false) ∧
    RetryPolicy.mkDefault.retry_on = [429, 500, 502, 503, 504] := by
  refine ⟨by simp [RetryPolicy.should_retry], ?_, rfl⟩
  intro h
  have hd : decide (attempt < p.max_retries) = false := by
    simp only [decide_eq_false_iff_not, not_lt]
    exact h
  simp [RetryPolicy.should_retry, hd]

/-- Witness for C9 at a concrete exhausted attempt. -/
theorem C9_should_retry_witness :
    RetryPolicy.mkDefault.should_retry 503 5 = false :=
  (C9_should_retry_characterization RetryPolicy.mkDefault 503 5).2.1 (by decide)

/-- C7: immediately after `set(key, r)` the store binds `key` to `r`; a `get`
whose age `now - storedAt` is strictly below `ttl` returns exactly the stored
response without touching the store; a `get` on any entry whose age reached
`ttl` returns nothing and evicts that key. -/
theorem C7_cache_ttl_semantics (cm : CacheManager) (key : String) (r : APIResponse)
    (tset now : ℚ) :
    ((cm.set key r tset).cache.lookup key = some ⟨r, tset⟩) ∧
    (now - tset < cm.ttl →
      (cm.set key r tset).get key now = (some r, cm.set key r tset)) ∧
    (∀ e : CacheEntry, cm.cache.lookup key = some e → cm.ttl ≤ now - e.timestamp →
      (cm.get key now).1 = none ∧ ((cm.get key now).2).cache.lookup key = none) := by
  have hlk : (cm.set key r tset).cache.lookup key = some ⟨r, tset⟩ := by
    simp [CacheManager.set, List.lookup]
  refine ⟨hlk, ?_, ?_⟩
  · intro hfresh
    unfold CacheManager.get
    rw [hlk]
    dsimp only
    have hfresh' : now - tset < (cm.set key r tset).ttl := hfresh
    rw [if_pos hfresh']
  · intro e he hstale
    unfold CacheManager.get
    rw [he]
    dsimp only
    rw [if_neg (not_lt.mpr hstale)]
    exact ⟨rfl, lookup_filter_ne_eq_none cm.cache key⟩

/-- Witness for C7: a concrete set-then-get round trip inside the TTL. -/
theorem C7_cache_witness :
    ((CacheManager.mk 300 []).set "GET_/u_" ⟨200, "d", [], 1, "/u"⟩ 0).get "GET_/u_" 10 =
      (some ⟨200, "d", [], 1, "/u"⟩,
        (CacheManager.mk 300 []).set "GET_/u_" ⟨200, "d", [], 1, "/u"⟩ 0) :=
  (C7_cache_ttl_semantics (CacheManager.mk 300 []) "GET_/u_" ⟨200, "d", [], 1, "/u"⟩ 0 10).2.1
    (by norm_num)

/-- C10: `on_success()` on an OPEN breaker resets the failure counter but
leaves the state OPEN (a success closes the breaker only from HALF_OPEN), and
while the recovery timeout has not elapsed `can_execute()` still refuses. -/
theorem C10_on_success_while_open (cb : CircuitBreaker) (h : cb.state = .OPEN) :
    cb.on_success.state = .OPEN ∧ cb.on_success.failures = 0 ∧
    cb.on_success.last_failure_time = cb.last_failure_time ∧
    ∀ now, now - cb.last_failure_time ≤ cb.recovery_timeout →
      (cb.on_success.can_execute now).1 = false := by
  have hs : cb.on_success = { cb with failures := 0 } := by
    unfold CircuitBreaker.on_success
    dsimp only
    rw [if_neg (by simp [h])]
  refine ⟨by simp [hs, h], by simp [hs], by simp [hs], ?_⟩
  intro now hle
  rw [hs]
  unfold CircuitBreaker.can_execute
  dsimp only
  rw [if_pos h, if_neg (not_lt.mpr hle)]

/-- Witness for C10 on a concrete OPEN breaker. -/
theorem C10_on_success_witness :
    (⟨5, 60, [], 7, CBState.OPEN, 100⟩ : CircuitBreaker).on_success.state = CBState.OPEN :=
  (C10_on_success_while_open ⟨5, 60, [], 7, CBState.OPEN, 100⟩ rfl).1

/-- C3 counterexample: an OPEN breaker past its recovery timeout flips to
HALF_OPEN on `can_execute()` and returns true — but before any
`on_success`/`on_failure`, a second `can_execute()` also returns true, so the
admission is not exactly-once per transition. -/
theorem C3_counterexample :
    (((CircuitBreaker.mk0 1 1 []).on_failure 0).can_execute 2).1 = true ∧
    (((CircuitBreaker.mk0 1 1 []).on_failure 0).can_execute 2).2.state = CBState.HALF_OPEN ∧
    ((((CircuitBreaker.mk0 1 1 []).on_failure 0).can_execute 2).2.can_execute 2).1 = true := by
  refine ⟨?_, ?_, ?_⟩ <;>
    simp [CircuitBreaker.mk0, CircuitBreaker.on_failure, CircuitBreaker.can_execute]

/-- C3 amended: once more than `recoveryTimeout` has elapsed since
`lastFailureTime`, the next `can_execute()` flips the state to HALF_OPEN and
returns true; however, every further `can_execute()` made while the breaker
stays HALF_OPEN (before the probe completes) also returns true — the
admission is not limited to a single probe. -/
theorem C3_open_to_half_open (cb : CircuitBreaker) (now : ℚ)
    (hst : cb.state = .OPEN) (ht : cb.recovery_timeout < now - cb.last_failure_time) :
    cb.can_execute now = (true, { cb with state := .HALF_OPEN }) ∧
    ∀ now', ({ cb with state := CBState.HALF_OPEN }).can_execute now' =
      (true, { cb with state := .HALF_OPEN }) := by
  constructor
  · unfold CircuitBreaker.can_execute
    rw [if_pos hst, if_pos ht]
  · intro now'
    unfold CircuitBreaker.can_execute
    rw [if_neg (by simp)]

/-- Witness for C3 (amended) on a concrete timed-out OPEN breaker. -/
theorem C3_open_to_half_open_witness :
    (⟨1, 1, [], 1, CBState.OPEN, 0⟩ : CircuitBreaker).can_execute 2 =
      (true, ⟨1, 1, [], 1, CBState.HALF_OPEN, 0⟩) :=
  (C3_open_to_half_open ⟨1, 1, [], 1, CBState.OPEN, 0⟩ 2 rfl (by norm_num)).1

/-- C4 counterexample: a reachable HALF_OPEN breaker (threshold 2: two
failures, then a success recorded while OPEN, then a timed-out
`can_execute`) does NOT return to OPEN on a single `on_failure()`, because
the success reset the failure counter below the threshold. -/
theorem C4_counterexample :
    CircuitBreaker.Reachable 2 1 []
      ((((CircuitBreaker.mk0 2 1 []).on_failure 0).on_failure 0).on_success.can_execute 2).2 ∧
    ((((CircuitBreaker.mk0 2 1 []).on_failure 0).on_failure 0).on_success.can_execute 2).2.state
      = CBState.HALF_OPEN ∧
    ¬(((((CircuitBreaker.mk0 2 1 []).on_failure 0).on_failure 0).on_success.can_execute
        2).2.on_failure 2).state = CBState.OPEN := by
  refine ⟨?_,
    by simp [CircuitBreaker.mk0, CircuitBreaker.on_failure, CircuitBreaker.on_success,
      CircuitBreaker.can_execute],
    by simp [CircuitBreaker.mk0, CircuitBreaker.on_failure, CircuitBreaker.on_success,
      CircuitBreaker.can_execute]⟩
  exact CircuitBreaker.Reachable.can_exec _ 2
    (CircuitBreaker.Reachable.success _
      (CircuitBreaker.Reachable.failure _ 0
        (CircuitBreaker.Reachable.failure _ 0 CircuitBreaker.Reachable.init)))

/-- C4 amended: from any HALF_OPEN breaker state, a single `on_failure()`
increments the failure counter and stamps `lastFailureTime` (counted like any
other failure), and transitions back to OPEN exactly when the incremented
counter reaches `failureThreshold` — which can fail to hold for reachable
HALF_OPEN states whose counter was reset by a success recorded while OPEN. -/
theorem C4_half_open_on_failure (cb : CircuitBreaker) (now : ℚ)
    (h : cb.state = .HALF_OPEN) :
    (cb.on_failure now).failures = cb.failures + 1 ∧
    (cb.on_failure now).last_failure_time = now ∧
    ((cb.on_failure now).state = .OPEN ↔ cb.failure_threshold ≤ cb.failures + 1) := by
  obtain ⟨_, _, _, h4, h5⟩ := on_failure_fields cb now
  refine ⟨h4, h5, ?_⟩
  unfold CircuitBreaker.on_failure
  dsimp only
  by_cases hthr : cb.failure_threshold ≤ cb.failures + 1
  · rw [if_pos hthr]
    simpa using hthr
  · rw [if_neg hthr]
    simp [h, hthr]

/-- Witness for C4 (amended) on a concrete HALF_OPEN breaker. -/
theorem C4_half_open_on_failure_witness :
    ((⟨2, 1, [], 0, CBState.HALF_OPEN, 0⟩ : CircuitBreaker).on_failure 5).failures = 0 + 1 :=
  (C4_half_open_on_failure ⟨2, 1, [], 0, CBState.HALF_OPEN, 0⟩ 5 rfl).1

/-- C8: a fresh token-bucket limiter (capacity = configured rate) admits at
most `capacity` of any same-instant burst of `acquire()` calls, and each
`acquire()` (with a non-decreasing clock) preserves
`0 ≤ tokens ≤ capacity`. -/
theorem C8_token_bucket_burst_and_invariant (rps : Int) (now now' : ℚ) (n : Nat)
    (rl : RateLimiter) (hrps : 0 ≤ rps) :
    ((((RateLimiter.mk0 rps "token_bucket" now).burst now n).1 : ℚ) ≤ (rps : ℚ)) ∧
    (rl.algorithm = "token_bucket" → rl.last_refill ≤ now' → 0 ≤ rl.tokens →
      rl.tokens ≤ (rl.rps : ℚ) →
      0 ≤ (rl.acquire now').2.tokens ∧ (rl.acquire now').2.tokens ≤ (rl.rps : ℚ)) := by
  constructor
  · have h := burst_count_le_tokens now n (RateLimiter.mk0 rps "token_bucket" now)
      rfl rfl (show (0 : ℚ) ≤ (rps : ℚ) by exact_mod_cast hrps) (le_refl _)
    exact h
  · intro halg hle h0 hcap
    have hacq : rl.acquire now' = rl.token_bucket_acquire now' := by
      simp [RateLimiter.acquire, halg]
    rw [hacq]
    unfold RateLimiter.token_bucket_acquire
    dsimp only
    have hrps0 : (0 : ℚ) ≤ (rl.rps : ℚ) := le_trans h0 hcap
    have hprod : (0 : ℚ) ≤ (now' - rl.last_refill) * (rl.rps : ℚ) :=
      mul_nonneg (by linarith) hrps0
    have ht1nn : 0 ≤ min (rl.rps : ℚ) (rl.tokens + (now' - rl.last_refill) * (rl.rps : ℚ)) :=
      le_min hrps0 (by linarith)
    have ht1cap : min (rl.rps : ℚ) (rl.tokens + (now' - rl.last_refill) * (rl.rps : ℚ)) ≤
        (rl.rps : ℚ) := min_le_left _ _
    by_cases h1 : (1 : ℚ) ≤ min (rl.rps : ℚ) (rl.tokens + (now' - rl.last_refill) * (rl.rps : ℚ))
    · rw [if_pos h1]
      constructor <;> dsimp only <;> linarith
    · rw [if_neg h1]
      exact ⟨ht1nn, ht1cap⟩

/-- C6: with mocking enabled and a mock registered under
`upper(method) + "_" + endpoint`, `request` returns the synthesized response
(mock status / body / headers, url `mock://endpoint`) immediately, for every
state of the other components (breaker — even OPEN —, rate limiter, cache,
metrics), leaving the whole client state unchanged and never invoking the
transport oracle (the result does not depend on `oracle`, `now0` or
`polls`). -/
theorem C6_mock_short_circuit (base_url : String) (policy : RetryPolicy)
    (method endpoint : String) (retry use_cache : Bool) (params : Option String)
    (now0 : ℚ) (polls : List ℚ) (oracle : Nat → Attempt) (st : ClientState)
    (entry : MockEntry)
    (hen : st.mock_manager.enabled = true)
    (hlk : st.mock_manager.mocks.lookup (method.toUpper ++ "_" ++ endpoint) = some entry) :
    APIClient.request base_url policy method endpoint retry use_cache params now0 polls
        oracle st =
      (.ok { status := entry.status, data := entry.data, headers := entry.headers,
             elapsed := entry.elapsed, url := "mock://" ++ endpoint }, st) := by
  have hmock : st.mock_manager.get_mock_response method endpoint =
      some { status := entry.status, data := entry.data, headers := entry.headers,
             elapsed := entry.elapsed, url := "mock://" ++ endpoint } := by
    unfold MockManager.get_mock_response
    rw [if_pos hen, hlk]
  unfold APIClient.request
  rw [hmock]

/-- Witness for C6: concrete mock hit while the breaker is OPEN. -/
theorem C6_mock_short_circuit_witness :
    APIClient.request "" RetryPolicy.mkDefault "get" "/u" true false none 0 []
        (fun _ => ⟨.exn "ConnectionError", 0, 0⟩)
        ⟨⟨5, 60, [], 9, CBState.OPEN, 0⟩, none,
          ⟨[("get".toUpper ++ "_" ++ "/u", ⟨201, "mockbody", [], 1⟩)], true⟩, none, none, []⟩ =
      (.ok { status := 201, data := "mockbody", headers := [], elapsed := 1,
             url := "mock://" ++ "/u" },
        ⟨⟨5, 60, [], 9, CBState.OPEN, 0⟩, none,
          ⟨[("get".toUpper ++ "_" ++ "/u", ⟨201, "mockbody", [], 1⟩)], true⟩, none, none, []⟩) :=
  C6_mock_short_circuit "" RetryPolicy.mkDefault "get" "/u" true false none 0 []
    (fun _ => ⟨.exn "ConnectionError", 0, 0⟩) _ ⟨201, "mockbody", [], 1⟩ rfl
    (by simp [List.lookup])

/-- C5: a fresh CLOSED breaker with positive recovery timeout is OPEN after
`failureThreshold` consecutive `on_failure()` calls; an immediate
`can_execute()` (recovery timeout not yet elapsed) returns false; and a
`request` made then with no matching mock terminates with the circuit-open
error, leaving the client state untouched and independent of the transport
oracle (no attempt, no retry loop). -/
theorem C5_threshold_opens_and_rejects (ft : Int) (rt : ℚ) (ex : List String)
    (ts : List ℚ) (base_url : String) (policy : RetryPolicy)
    (method endpoint : String) (retry use_cache : Bool) (params : Option String)
    (now0 : ℚ) (polls : List ℚ) (oracle : Nat → Attempt)
    (rl : Option RateLimiter) (mm : MockManager) (cache : Option CacheManager)
    (metrics : Option MetricsCollector) (sleeps : List ℚ)
    (hft : 1 ≤ ft) (_hrt : 0 < rt) (hlen : (ts.length : Int) = ft)
    (hmm : mm.get_mock_response method endpoint = none)
    (hnow : now0 -
      (ts.foldl (fun c t => c.on_failure t) (CircuitBreaker.mk0 ft rt ex)).last_failure_time
        ≤ rt) :
    (ts.foldl (fun c t => c.on_failure t) (CircuitBreaker.mk0 ft rt ex)).state = .OPEN ∧
    ((ts.foldl (fun c t => c.on_failure t) (CircuitBreaker.mk0 ft rt ex)).can_execute
      now0).1 = false ∧
    APIClient.request base_url policy method endpoint retry use_cache params now0 polls
        oracle
        ⟨ts.foldl (fun c t => c.on_failure t) (CircuitBreaker.mk0 ft rt ex),
          rl, mm, cache, metrics, sleeps⟩ =
      (.circuitOpen,
        ⟨ts.foldl (fun c t => c.on_failure t) (CircuitBreaker.mk0 ft rt ex),
          rl, mm, cache, metrics, sleeps⟩) := by
  set cbN := ts.foldl (fun c t => c.on_failure t) (CircuitBreaker.mk0 ft rt ex) with hcbN
  have hne : ts ≠ [] := by
    rintro rfl
    simp only [List.length_nil, Nat.cast_zero] at hlen
    omega
  have hopen : cbN.state = .OPEN := by
    apply foldl_on_failure_opens ts (CircuitBreaker.mk0 ft rt ex) rfl _ hne
    show ft ≤ 0 + (ts.length : Int)
    omega
  obtain ⟨-, hrt', -⟩ := foldl_on_failure_fields ts (CircuitBreaker.mk0 ft rt ex)
  have hrteq : cbN.recovery_timeout = rt := by
    rw [hcbN, hrt']
    rfl
  have hcan : cbN.can_execute now0 = (false, cbN) := by
    unfold CircuitBreaker.can_execute
    rw [if_pos hopen, if_neg (by rw [hrteq]; exact not_lt.mpr hnow)]
  refine ⟨hopen, by rw [hcan], ?_⟩
  unfold APIClient.request
  rw [hmm]
  dsimp only
  rw [hcan]
  simp

/-- Witness for C5: threshold 2, two failures at time 0, request at time 0. -/
theorem C5_threshold_witness :
    APIClient.request "" RetryPolicy.mkDefault "GET" "/x" true false none 0 []
        (fun _ => ⟨.ok 200 "" [], 0, 0⟩)
        ⟨[(0 : ℚ), 0].foldl (fun c t => c.on_failure t) (CircuitBreaker.mk0 2 1 []),
          none, ⟨[], false⟩, none, none, []⟩ =
      (.circuitOpen,
        ⟨[(0 : ℚ), 0].foldl (fun c t => c.on_failure t) (CircuitBreaker.mk0 2 1 []),
          none, ⟨[], false⟩, none, none, []⟩) :=
  (C5_threshold_opens_and_rejects 2 1 [] [0, 0] "" RetryPolicy.mkDefault "GET" "/x"
    true false none 0 [] (fun _ => ⟨.ok 200 "" [], 0, 0⟩) none ⟨[], false⟩ none none []
    (by norm_num) (by norm_num) (by norm_num) rfl
    (by simp [CircuitBreaker.mk0, CircuitBreaker.on_failure])).2.2

/-- C2: with `maxRetries = 3` (503 retryable), retry enabled, metrics
enabled, breaker CLOSED, no matching mock, no rate limiter and no cache, a
transport yielding 503 on attempts 1 and 2 and 200 on attempt 3 makes
`request` return the attempt-3 response after exactly two delayed retries
(sleeping `get_delay 1` then `get_delay 2`), and the metrics summary reports
`total_requests = 3` and `error_count = 2` (every attempt recorded). -/
theorem C2_retry_twice_then_succeed (t0 now0 tq : ℚ) (cb0 : CircuitBreaker)
    (mm : MockManager) (base endpoint method : String) (params : Option String)
    (policy : RetryPolicy) (d1 d2 d3 : String) (hd1 hd2 hd3 : List (String × String))
    (el1 el2 el3 t1 t2 t3 : ℚ) (oracle : Nat → Attempt)
    (hpm : policy.max_retries = 3) (hpr : (503 : Int) ∈ policy.retry_on)
    (hmm : mm.get_mock_response method endpoint = none)
    (hcb : cb0.state = .CLOSED)
    (h1 : oracle 1 = ⟨.ok 503 d1 hd1, el1, t1⟩)
    (h2 : oracle 2 = ⟨.ok 503 d2 hd2, el2, t2⟩)
    (h3 : oracle 3 = ⟨.ok 200 d3 hd3, el3, t3⟩) :
    (APIClient.request base policy method endpoint true false params now0 [] oracle
        ⟨cb0, none, mm, none, some (MetricsCollector.mk0 t0), []⟩).1 =
      .ok ⟨200, d3, hd3, el3, APIClient.build_url base endpoint⟩ ∧
    (APIClient.request base policy method endpoint true false params now0 [] oracle
        ⟨cb0, none, mm, none, some (MetricsCollector.mk0 t0), []⟩).2.sleeps =
      [policy.get_delay 1, policy.get_delay 2] ∧
    ((APIClient.request base policy method endpoint true false params now0 [] oracle
        ⟨cb0, none, mm, none, some (MetricsCollector.mk0 t0), []⟩).2.metrics.map
      (fun (m : MetricsCollector) =>
        ((m.get_summary tq).total_requests, (m.get_summary tq).error_count))) =
      some (3, 2) := by
  have hcan : cb0.can_execute now0 = (true, cb0) := by
    unfold CircuitBreaker.can_execute
    rw [if_neg (by simp [hcb])]
  have hreq : APIClient.request base policy method endpoint true false params now0 [] oracle
      ⟨cb0, none, mm, none, some (MetricsCollector.mk0 t0), []⟩ =
      requestLoop policy true cb0.expected_exceptions none
        (APIClient.build_url base endpoint) oracle 1
        ⟨cb0, none, mm, none, some (MetricsCollector.mk0 t0), []⟩ := by
    unfold APIClient.request
    rw [hmm]
    dsimp only
    rw [hcan]
    simp
  rw [hreq]
  rw [requestLoop.eq_def]
  rw [h1]
  dsimp only
  norm_num [APIResponse.success, RetryPolicy.should_retry, hpm, decide_eq_true hpr]
  rw [requestLoop.eq_def]
  rw [h2]
  dsimp only
  norm_num [APIResponse.success, RetryPolicy.should_retry, hpm, decide_eq_true hpr]
  rw [requestLoop.eq_def]
  rw [h3]
  dsimp only
  norm_num [APIResponse.success, MetricsCollector.record_request, MetricsCollector.mk0,
    MetricsCollector.get_summary]

/-- Witness for C2: concrete 503/503/200 oracle against the default policy. -/
theorem C2_retry_twice_witness :
    (APIClient.request "" RetryPolicy.mkDefault "GET" "/x" true false none 0 []
        (fun n => if n ≤ 1 then ⟨.ok 503 "a" [], 1, 5⟩
                  else if n ≤ 2 then ⟨.ok 503 "a" [], 1, 6⟩
                  else ⟨.ok 200 "ok" [], 2, 7⟩)
        ⟨CircuitBreaker.mk0 5 60 [], none, ⟨[], false⟩, none,
          some (MetricsCollector.mk0 0), []⟩).2.sleeps =
      [RetryPolicy.mkDefault.get_delay 1, RetryPolicy.mkDefault.get_delay 2] :=
  (C2_retry_twice_then_succeed 0 0 9 (CircuitBreaker.mk0 5 60 []) ⟨[], false⟩
    "" "/x" "GET" none RetryPolicy.mkDefault "a" "a" "ok" [] [] [] 1 1 2 5 6 7
    (fun n => if n ≤ 1 then ⟨.ok 503 "a" [], 1, 5⟩
              else if n ≤ 2 then ⟨.ok 503 "a" [], 1, 6⟩
              else ⟨.ok 200 "ok" [], 2, 7⟩)
    rfl (by decide) rfl rfl rfl rfl rfl).2.1

/-- C1: the retry loop never turns a transport response into an exception —
it terminates either with `transportError` or with a returned response; a
`transportError e` outcome arises only from an attempt whose transport raised
`e` and for which no further retry was permitted
(`¬(retry ∧ attempt < maxRetries ∧ e expected)`), re-raising that very
exception; and every returned response is exactly the response constructed
from some attempt's transport result (callers must check `success`). -/
theorem C1_exception_propagation (policy : RetryPolicy) (retry : Bool)
    (expected : List String) (cache_key : Option String) (url : String)
    (oracle : Nat → Attempt) (attempt : Nat) (st : ClientState) :
    ((∃ e, (requestLoop policy retry expected cache_key url oracle attempt st).1 =
        .transportError e) ∨
      (∃ r, (requestLoop policy retry expected cache_key url oracle attempt st).1 =
        .ok r)) ∧
    (∀ e, (requestLoop policy retry expected cache_key url oracle attempt st).1 =
        .transportError e →
      ∃ n, attempt ≤ n ∧ (oracle n).result = .exn e ∧
        ¬(retry = true ∧ (n : Int) < policy.max_retries ∧ e ∈ expected)) ∧
    (∀ r, (requestLoop policy retry expected cache_key url oracle attempt st).1 = .ok r →
      ∃ n d h, attempt ≤ n ∧ (oracle n).result = .ok r.status d h ∧
        r = ⟨r.status, d, h, (oracle n).elapsed, url⟩) := by
  suffices H : ∀ (fuel : Nat) (attempt : Nat) (st : ClientState),
      (policy.max_retries - (attempt : Int)).toNat < fuel →
      ((∃ e, (requestLoop policy retry expected cache_key url oracle attempt st).1 =
          .transportError e) ∨
        (∃ r, (requestLoop policy retry expected cache_key url oracle attempt st).1 =
          .ok r)) ∧
      (∀ e, (requestLoop policy retry expected cache_key url oracle attempt st).1 =
          .transportError e →
        ∃ n, attempt ≤ n ∧ (oracle n).result = .exn e ∧
          ¬(retry = true ∧ (n : Int) < policy.max_retries ∧ e ∈ expected)) ∧
      (∀ r, (requestLoop policy retry expected cache_key url oracle attempt st).1 =
          .ok r →
        ∃ n d h, attempt ≤ n ∧ (oracle n).result = .ok r.status d h ∧
          r = ⟨r.status, d, h, (oracle n).elapsed, url⟩) by
    exact H ((policy.max_retries - (attempt : Int)).toNat + 1) attempt st
      (Nat.lt_succ_self _)
  intro fuel
  induction fuel with
  | zero => exact fun attempt st h => absurd h (Nat.not_lt_zero _)
  | succ k ih =>
      intro attempt st hfuel
      rw [requestLoop.eq_def]
      dsimp only
      cases hres : (oracle attempt).result with
      | ok status dat hdrs =>
          dsimp only
          split_ifs with hsucc hretry
          · refine ⟨Or.inr ⟨_, rfl⟩, fun e he => by simp at he, fun r hr => ?_⟩
            rw [RequestResult.ok.injEq] at hr
            subst hr
            exact ⟨attempt, dat, hdrs, le_refl _, hres, rfl⟩
          · have hlt : (attempt : Int) < policy.max_retries := by
              simp only [Bool.and_eq_true, RetryPolicy.should_retry,
                decide_eq_true_eq] at hretry
              exact hretry.2.1
            obtain ⟨c1, c2, c3⟩ := ih (attempt + 1) _ (by omega)
            refine ⟨c1, fun e he => ?_, fun r hr => ?_⟩
            · obtain ⟨n, hn, g2, g3⟩ := c2 e he
              exact ⟨n, by omega, g2, g3⟩
            · obtain ⟨n, d, h, hn, g2, g3⟩ := c3 r hr
              exact ⟨n, d, h, by omega, g2, g3⟩
          · refine ⟨Or.inr ⟨_, rfl⟩, fun e he => by simp at he, fun r hr => ?_⟩
            rw [RequestResult.ok.injEq] at hr
            subst hr
            exact ⟨attempt, dat, hdrs, le_refl _, hres, rfl⟩
      | exn e =>
          dsimp only
          split_ifs with hretry
          · have hlt : (attempt : Int) < policy.max_retries := by
              simp only [Bool.and_eq_true, decide_eq_true_eq] at hretry
              exact hretry.1.2
            obtain ⟨c1, c2, c3⟩ := ih (attempt + 1) _ (by omega)
            refine ⟨c1, fun e' he' => ?_, fun r hr => ?_⟩
            · obtain ⟨n, hn, g2, g3⟩ := c2 e' he'
              exact ⟨n, by omega, g2, g3⟩
            · obtain ⟨n, d, h, hn, g2, g3⟩ := c3 r hr
              exact ⟨n, d, h, by omega, g2, g3⟩
          · refine ⟨Or.inl ⟨e, rfl⟩, fun e' he' => ?_, fun r hr => by simp at hr⟩
            rw [RequestResult.transportError.injEq] at he'
            subst he'
            refine ⟨attempt, le_refl _, hres, fun hcontra => hretry ?_⟩
            simp only [Bool.and_eq_true, decide_eq_true_eq]
            exact ⟨⟨hcontra.1, hcontra.2.1⟩, hcontra.2.2⟩

/-- Witness for C1: a non-retryable (retry disabled) raising transport. -/
theorem C1_exception_propagation_witness :
    ∃ n, 1 ≤ n ∧ ((fun (_ : Nat) => (⟨.exn "E", 0, 0⟩ : Attempt)) n).result = .exn "E" ∧
      ¬(false = true ∧ (n : Int) < RetryPolicy.mkDefault.max_retries ∧
          "E" ∈ ([] : List String)) :=
  (C1_exception_propagation RetryPolicy.mkDefault false [] none "u"
      (fun _ => ⟨.exn "E", 0, 0⟩) 1
      ⟨CircuitBreaker.mk0 5 60 [], none, ⟨[], false⟩, none, none, []⟩).2.1 "E"
    (by rw [requestLoop.eq_def]; rfl)

/-- Witness for C8: a concrete burst of five acquires against capacity two. -/
theorem C8_token_bucket_witness :
    ((((RateLimiter.mk0 2 "token_bucket" 0).burst 0 5).1 : ℚ) ≤ ((2 : Int) : ℚ)) :=
  (C8_token_bucket_burst_and_invariant 2 0 0 5 (RateLimiter.mk0 2 "token_bucket" 0)
    (by decide)).1

end Api
